import Mathlib

/-!
Verification development for the HMAWBI university chatbot
(repository `university-chatbot`).

The rule-based core is shallowly embedded here:

* messages and response texts are `List Char` (`Str`);
* Python `x in s` substring tests are `subIn`;
* the regular expressions used by the policy filter and the greeting
  rule are of the restricted shapes `\b(w1|w2|...)\b` and
  `\b(a.*b|...)\b`; they are embedded by explicit word-boundary
  searches (`wordBounded`, `boundedPair`) where a word character is an
  ASCII alphanumeric or an underscore and `.` does not match a newline;
* `dict.get(k, d)` on keys that the data manager may omit becomes an
  `Option` field read with `getS`/`getD`; keys the data manager always
  populates (entity names and titles) are required record fields;
* `random.choice(templates)` is abstracted by an arbitrary selection
  function `pick : List Str → Str` supplied as a parameter;
* calls into the external data store may fail, which is modelled by
  `Except`; the orchestrator's catch-all `except` clause becomes a
  `match` on this `Except`.

Python's `str.lower` is embedded by `Char.toLower`, which only maps
the ASCII range; every string matched by this program's rules is ASCII,
so the two agree on all inputs the rules can distinguish.
-/

set_option autoImplicit false

/-- Strings of the embedded program: Python `str` as a list of characters. -/
abbrev Str := List Char

/-- Coerce a Lean string literal into the embedding's string type. -/
def str (s : String) : Str := s.data

/-- Python `s.lower()` (ASCII). -/
def lowerStr (s : Str) : Str := s.map Char.toLower

/-- Python `n in h`: `n` occurs as a contiguous substring of `h`. -/
def subIn (n : Str) : Str → Bool
  | [] => n.isEmpty
  | c :: rest => n.isPrefixOf (c :: rest) || subIn n rest

/-- Python `any(k in h for k in ks)`. -/
def anyIn (ks : List Str) (h : Str) : Bool := ks.any (fun k => subIn k h)

/-- A regex word character (`\w`, ASCII): alphanumeric or underscore. -/
def isWordChar (c : Char) : Bool := c.isAlphanum || c == '_'

/-- No word character just before position `i` (regex `\b` seen from the left). -/
def boundaryBefore (s : Str) (i : Nat) : Bool :=
  i == 0 || !(isWordChar (s.getD (i - 1) ' '))

/-- No word character at position `i` (regex `\b` seen from the right). -/
def boundaryAfter (s : Str) (i : Nat) : Bool :=
  decide (s.length ≤ i) || !(isWordChar (s.getD i ' '))

/-- `re.search(r"\b" + w + r"\b", s)` for a literal word or phrase `w`. -/
def wordBounded (w s : Str) : Bool :=
  (List.range (s.length + 1)).any fun i =>
    w.isPrefixOf (s.drop i) && boundaryBefore s i && boundaryAfter s (i + w.length)

/-- `re.search` for an alternation `\b(w1|w2|...)\b` of literal phrases. -/
def wordBoundedAny (ws : List Str) (s : Str) : Bool := ws.any (fun w => wordBounded w s)

/-- The span `s[i:j]` contains no newline (regex `.` does not match `\n`). -/
def noNewlineSpan (s : Str) (i j : Nat) : Bool :=
  ((s.drop i).take (j - i)).all (fun c => c ≠ '\n')

/-- `re.search(r"\b" + a + ".*" + b + r"\b", s)`: `a` at a left word
boundary, later `b` ending at a right word boundary, with no newline in
between. -/
def boundedPair (a b : Str) (s : Str) : Bool :=
  (List.range (s.length + 1)).any fun i =>
    a.isPrefixOf (s.drop i) && boundaryBefore s i &&
      ((List.range (s.length + 1)).any fun j =>
        decide (i + a.length ≤ j) && b.isPrefixOf (s.drop j) &&
          boundaryAfter s (j + b.length) && noNewlineSpan s (i + a.length) j)

/-- Python truthiness of a string. -/
def pyTruthy (s : Str) : Bool := !s.isEmpty

/-- Python `d.get(k, default)` for an optional string field. -/
def getS (o : Option Str) (d : Str) : Str := o.getD d

/-- Python truthiness of `d.get(k)` for an optional string field. -/
def pyTruthyO (o : Option Str) : Bool := !(o.getD []).isEmpty

/-- Python `s.strip()`: drop leading and trailing whitespace. -/
def pyStrip (s : Str) : Str :=
  ((s.dropWhile Char.isWhitespace).reverse.dropWhile Char.isWhitespace).reverse

/-- Python `s.split()` : split on whitespace runs, dropping empty chunks. -/
def pySplitWS (s : Str) : List Str :=
  let step := fun (c : Char) (acc : Str × List Str) =>
    if c.isWhitespace then
      ([], if acc.1.isEmpty then acc.2 else acc.1 :: acc.2)
    else (c :: acc.1, acc.2)
  let r := s.foldr step ([], [])
  if r.1.isEmpty then r.2 else r.1 :: r.2

/-- Python `s.split(sep)` for a single separator character. -/
def pySplitChar (sep : Char) (s : Str) : List Str :=
  s.foldr
    (fun c acc =>
      match acc with
      | [] => [[c]]
      | h :: t => if c == sep then [] :: h :: t else (c :: h) :: t)
    [[]]

/-- Python `s.replace(p, r)` where the pattern `p = p0 :: ps` is non-empty:
left-to-right, non-overlapping. Structural recursion on a fuel bound so
the function reduces in the kernel; the fuel (the string length) can
never run out because each step consumes at least one character. -/
def replaceAllFuel (p0 : Char) (ps rep : Str) : Nat → Str → Str
  | 0, s => s
  | _ + 1, [] => []
  | fuel + 1, c :: rest =>
    if (p0 :: ps).isPrefixOf (c :: rest) then
      rep ++ replaceAllFuel p0 ps rep fuel ((c :: rest).drop (ps.length + 1))
    else c :: replaceAllFuel p0 ps rep fuel rest

/-- Python `s.replace(p, r)` for a non-empty pattern `p = p0 :: ps`. -/
def replaceAll (p0 : Char) (ps rep : Str) (s : Str) : Str :=
  replaceAllFuel p0 ps rep s.length s

/-- Python `s.replace(" ", "")`. -/
def dropSpaces (s : Str) : Str := s.filter (fun c => c ≠ ' ')

/-- Python `sep.join(l)`. -/
def joinSep (sep : Str) (l : List Str) : Str := List.intercalate sep l

/-- Concatenation of a list of strings. -/
def concatAll (l : List Str) : Str := l.foldr (fun a b => a ++ b) []

/-- Python `str(n)` for a natural number. -/
def natStr (n : Nat) : Str := (toString n).data

/-- Python `s.title()` restricted to what the code feeds it: the first
alphabetic character of each alphabetic run is upper-cased, later ones
lower-cased. -/
def pyTitleAux : Bool → Str → Str
  | _, [] => []
  | prevAlpha, c :: rest =>
    if c.isAlpha then
      (if prevAlpha then c.toLower else c.toUpper) :: pyTitleAux true rest
    else c :: pyTitleAux false rest

/-- Python `s.title()`. -/
def pyTitle (s : Str) : Str := pyTitleAux false s

theorem subIn_append_left (n a s : Str) (h : subIn n s = true) :
    subIn n (a ++ s) = true := by
  induction a with
  | nil => simpa using h
  | cons c t ih => simp [subIn, ih]

theorem subIn_self_append (n b : Str) : subIn n (n ++ b) = true := by
  cases n with
  | nil => cases b <;> simp [subIn]
  | cons c r =>
    have : (c :: r).isPrefixOf ((c :: r) ++ b) = true := by
      rw [List.isPrefixOf_iff_prefix]; exact List.prefix_append _ _
    simp [subIn, this]

theorem subIn_sandwich (a n b : Str) : subIn n (a ++ (n ++ b)) = true :=
  subIn_append_left n a (n ++ b) (subIn_self_append n b)

/-! ## Policy Filter (`_is_disallowed_request`, `ai_processor (3).py`) -/

/-- The fixed word-boundary phrases of the first disallowed pattern. -/
def disallowedAppearanceWords : List Str :=
  [str "prettiest", str "ugliest", str "worst teacher", str "best looking", str "hottest"]

/-- The fixed word-boundary phrases of the gossip pattern. -/
def disallowedGossipWords : List Str := [str "gossip", str "rumors"]

/-- `_is_disallowed_request`: the lower-cased message matches one of the
four disallowed regex patterns. -/
def is_disallowed_request (message : Str) : Bool :=
  let m := lowerStr message
  wordBoundedAny disallowedAppearanceWords m ||
    (boundedPair (str "rank") (str "students") m || boundedPair (str "rank") (str "staff") m) ||
    wordBoundedAny disallowedGossipWords m ||
    (boundedPair (str "personal") (str "information") m || boundedPair (str "private") (str "data") m)

/-! ## Intent Classifier (`_classify_message_intent`, `ai_processor (3).py`) -/

def university_info_keywords : List Str :=
  [str "rector name", str "pro-rector name", str "pro rector", str "history",
   str "about university", str "university information", str "general information",
   str "transportation", str "bus number", str "bus no", str "how to get", str "location"]

def contact_keywords : List Str :=
  [str "contact", str "phone", str "email", str "office", str "address",
   str "location", str "office hours", str "department"]

def known_entities_for_contact : List Str :=
  [str "civil department", str "admissions", str "library", str "registrar",
   str "department", str "student affairs", str "mechanical department",
   str "IT department", str "administration", str "office"]

def greeting_words : List Str :=
  [str "hello", str "hi", str "hey", str "good morning", str "good afternoon",
   str "good evening"]

def campus_keywords : List Str :=
  [str "campus", str "facility", str "library", str "hostel", str "cafeteria",
   str "sports", str "gym", str "dormitory"]

def program_keywords : List Str :=
  [str "program", str "course", str "degree", str "study", str "major",
   str "curriculum", str "engineering", str "it", str "computer", str "civil",
   str "electrical", str "mechanical", str "software"]

def club_keywords : List Str :=
  [str "club", str "organization", str "societies", str "groups",
   str "student club", str "extracurricular", str "membership", str "join club"]

def event_keywords : List Str :=
  [str "event", str "events", str "festival", str "ceremony", str "workshop",
   str "competition", str "upcoming", str "schedule"]

def student_life_keywords : List Str :=
  [str "student life", str "activities", str "campus life"]

def admission_keywords : List Str :=
  [str "admission", str "apply", str "application", str "deadline",
   str "entrance", str "enroll"]

def scholarship_keywords : List Str :=
  [str "scholarship", str "financial aid", str "grant", str "funding", str "assistance"]

def news_keywords : List Str := [str "news", str "latest", str "updates", str "announcements"]

/-- Rule 1 of the classifier. -/
def hasUniversityInfoKeyword (m : Str) : Bool := anyIn university_info_keywords m

/-- Rule 2 of the classifier: a contact keyword and a known contact entity. -/
def hasContactRule (m : Str) : Bool :=
  anyIn contact_keywords m && anyIn known_entities_for_contact m

/-- Rule 3 of the classifier: the greeting regex. -/
def hasGreetingPattern (m : Str) : Bool := wordBoundedAny greeting_words m

def hasCampusKeyword (m : Str) : Bool := anyIn campus_keywords m
def hasProgramKeyword (m : Str) : Bool := anyIn program_keywords m
def hasClubKeyword (m : Str) : Bool := anyIn club_keywords m
def hasEventKeyword (m : Str) : Bool := anyIn event_keywords m
def hasStudentLifeKeyword (m : Str) : Bool := anyIn student_life_keywords m
def hasAdmissionKeyword (m : Str) : Bool := anyIn admission_keywords m
def hasScholarshipKeyword (m : Str) : Bool := anyIn scholarship_keywords m
def hasNewsKeyword (m : Str) : Bool := anyIn news_keywords m

/-- `_classify_message_intent`: the ordered if/elif keyword tests of
`ai_processor (3).py`, first match wins. -/
def classify_message_intent (message : Str) : String :=
  let m := lowerStr message
  if hasUniversityInfoKeyword m then "university_info"
  else if hasContactRule m then "contact"
  else if hasGreetingPattern m then "greeting"
  else if hasCampusKeyword m then "campus"
  else if hasProgramKeyword m then "programs"
  else if hasClubKeyword m then "clubs"
  else if hasEventKeyword m then "events"
  else if hasStudentLifeKeyword m then "student_life"
  else if hasAdmissionKeyword m then "admission"
  else if hasScholarshipKeyword m then "scholarships"
  else if hasNewsKeyword m then "news"
  else "default"

/-- The classifier restated in the spec's shape: an explicit ordered list
of (predicate, category) rules, first match wins, `default` as fallback.
The order is the one actually implemented in `_classify_message_intent`. -/
def classifierRules : List ((Str → Bool) × String) :=
  [(hasUniversityInfoKeyword, "university_info"),
   (hasContactRule, "contact"),
   (hasGreetingPattern, "greeting"),
   (hasCampusKeyword, "campus"),
   (hasProgramKeyword, "programs"),
   (hasClubKeyword, "clubs"),
   (hasEventKeyword, "events"),
   (hasStudentLifeKeyword, "student_life"),
   (hasAdmissionKeyword, "admission"),
   (hasScholarshipKeyword, "scholarships"),
   (hasNewsKeyword, "news")]

/-- First-match-wins evaluation of an ordered rule list. -/
def firstMatchOn : List ((Str → Bool) × String) → Str → String
  | [], _ => "default"
  | (p, c) :: rs, m => if p m then c else firstMatchOn rs m

/-- The data-driven form of the classifier. -/
def firstMatchClassify (message : Str) : String :=
  firstMatchOn classifierRules (lowerStr message)

/-! ## Data model

Records as produced by `DataManager` (`data_manager.py`) and consumed by
the response code. Keys that the data manager populates unconditionally
(entity names and titles) are required fields; keys read through
`dict.get` that can be missing or whose truthiness is tested are
`Option` fields. `ai_processor (3).py` stores its decorated template
text double-encoded; the decorative emoji markers are transcribed here
in their intended form, which no claim depends on. -/

/-- A Python value that may be a string, a list of strings, or something
else (the `career_paths` / `specializations` fields are type-tested with
`isinstance`). -/
inductive PyVal where
  | vstr (s : Str)
  | vlist (l : List Str)
  | vother
deriving DecidableEq

structure ProgramData where
  duration : Option Str := none
  description : Option Str := none
  career_paths : Option PyVal := none
  entry_requirements : Option Str := none
  salary_range : Option Str := none
  specializations : Option PyVal := none
deriving DecidableEq

structure AdmissionData where
  academic_year : Option Str := none
  application_deadline : Option Str := none
  entrance_exam_date : Option Str := none
  application_fee : Option Str := none
  contact_email : Option Str := none
  contact_phone : Option Str := none
  office_hours : Option Str := none
  requirements : Option Str := none
  documents_needed : Option Str := none
deriving DecidableEq

structure CampusData where
  facilities : Option (List (Str × List Str)) := none
deriving DecidableEq

structure EventBrief where
  title : Option Str := none
  date : Option Str := none
deriving DecidableEq

structure StudentLifeData where
  clubs_organizations : Option (List Str) := none
  upcoming_events : Option (List EventBrief) := none
deriving DecidableEq

structure Scholarship where
  name : Str
  description : Option Str := none
  criteria : Option Str := none
  benefit : Option Str := none
  benefit_type : Option Str := none
  deadline : Option Str := none
  application_process : Option Str := none
deriving DecidableEq

structure Club where
  name : Str
  description : Option Str := none
  club_type : Option Str := none
  advisor : Option Str := none
  contact_email : Option Str := none
  meeting_schedule : Option Str := none
  membership_requirements : Option Str := none
  established_date : Option Str := none
  membership_fee : Option Str := none
  application_process : Option Str := none
deriving DecidableEq

structure EventData where
  title : Str
  description : Option Str := none
  event_type : Option Str := none
  start_date : Option Str := none
  end_date : Option Str := none
  location : Option Str := none
  organizer : Option Str := none
  registration_required : Option Bool := none
  registration_deadline : Option Str := none
  contact_info : Option Str := none
  max_participants : Option Str := none
deriving DecidableEq

structure NewsItem where
  title : Str
  content : Option Str := none
  category : Option Str := none
  date : Option Str := none
  tags : Option (List Str) := none
deriving DecidableEq

structure ContactData where
  phone : Option Str := none
  email : Option Str := none
  teacher : Option Str := none
  location : Option Str := none
  hours : Option Str := none
  description : Option Str := none
deriving DecidableEq

structure InfoItem where
  title : Option Str := none
  content : Option Str := none
  description : Option Str := none
deriving DecidableEq

/-- The context dictionary built by `_get_relevant_context`: at most one
key is present, matching the classified intent. -/
structure Context where
  programs : Option (List (Str × ProgramData)) := none
  admission : Option AdmissionData := none
  campus : Option CampusData := none
  student_life : Option StudentLifeData := none
  scholarships : Option (List Scholarship) := none
  clubs : Option (List Club) := none
  events : Option (List EventData) := none
  news : Option (List NewsItem) := none
  contact : Option (List (Str × ContactData)) := none
  university_info : Option (List (Str × InfoItem)) := none
deriving DecidableEq

/-- Python `bool(context_data)`: the dict is non-empty. -/
def Context.truthy (c : Context) : Bool :=
  c.programs.isSome || c.admission.isSome || c.campus.isSome ||
    c.student_life.isSome || c.scholarships.isSome || c.clubs.isSome ||
    c.events.isSome || c.news.isSome || c.contact.isSome ||
    c.university_info.isSome

/-- The external data store interface used by `_get_relevant_context`.
Each call may raise (modelled by `Except` with the exception text). -/
structure DataManager where
  get_all_programs : Except Str (List (Str × ProgramData))
  get_admission_info : Except Str AdmissionData
  get_campus_info : Except Str CampusData
  get_student_life_info : Except Str StudentLifeData
  get_scholarships : Except Str (List Scholarship)
  get_all_clubs : Except Str (List Club)
  get_all_events : Except Str (List EventData)
  get_latest_news : Nat → Except Str (List NewsItem)
  get_contact_info : Except Str (List (Str × ContactData))
  get_university_info : Except Str (List (Str × InfoItem))

/-- `_get_relevant_context`: one store call, selected by intent. -/
def get_relevant_context (intent : String) (dm : DataManager) : Except Str Context :=
  if intent = "programs" then dm.get_all_programs.map (fun v => { programs := some v })
  else if intent = "admission" then dm.get_admission_info.map (fun v => { admission := some v })
  else if intent = "campus" then dm.get_campus_info.map (fun v => { campus := some v })
  else if intent = "student_life" then dm.get_student_life_info.map (fun v => { student_life := some v })
  else if intent = "scholarships" then dm.get_scholarships.map (fun v => { scholarships := some v })
  else if intent = "clubs" then dm.get_all_clubs.map (fun v => { clubs := some v })
  else if intent = "events" then dm.get_all_events.map (fun v => { events := some v })
  else if intent = "news" then (dm.get_latest_news 5).map (fun v => { news := some v })
  else if intent = "contact" then dm.get_contact_info.map (fun v => { contact := some v })
  else if intent = "university_info" then dm.get_university_info.map (fun v => { university_info := some v })
  else Except.ok {}

/-! ## Response templates (`_load_response_templates`, `ai_processor (3).py`) -/

def greetingTemplates : List Str :=
  [str "Hello! I\x27m UniGuideBot, your HMAWBI University guidance assistant. How can I help you with information about programs, admissions, or campus life?",
   str "Welcome to HMAWBI University! I\x27m here to help you with questions about our programs, facilities, admissions, and student services. What would you like to know?",
   str "Hi there! I\x27m UniGuideBot, ready to assist you with any questions about HMAWBI University. How can I help you today?"]

def programsTemplates : List Str :=
  [str "We offer various programs at HMAWBI University. Here are some popular ones:",
   str "HMAWBI University provides excellent academic programs. Let me share information about our offerings:",
   str "Our university has comprehensive programs designed for your career success:"]

def admissionTemplates : List Str :=
  [str "For admission information at HMAWBI University:",
   str "Here\x27s what you need to know about applying to HMAWBI University:",
   str "Admission to HMAWBI University involves several steps:"]

def campusTemplates : List Str :=
  [str "HMAWBI University campus offers excellent facilities:",
   str "Our campus provides a comprehensive learning environment:",
   str "Campus life at HMAWBI University includes:"]

def studentLifeTemplates : List Str :=
  [str "Student life at HMAWBI University is vibrant and engaging:",
   str "Our university offers a rich student experience:",
   str "Campus life includes many opportunities for growth and engagement:"]

def scholarshipsTemplates : List Str :=
  [str "HMAWBI University offers various scholarship opportunities:",
   str "Scholarship programs available at our university:",
   str "Financial aid and scholarship options:"]

def contactTemplates : List Str :=
  [str "Here\x27s information about contacting departments at HMAWBI University:",
   str "Need to reach a specific department? Here\x27s how:",
   str "Contact details for HMAWBI University departments:"]

def newsTemplates : List Str :=
  [str "Here\x27s what\x27s happening at HMAWBI University:",
   str "Latest news and updates from our university:",
   str "Stay informed with our university news:"]

def eventsTemplates : List Str :=
  [str "Here are upcoming events at HMAWBI University:",
   str "Our university hosts various events throughout the year:",
   str "Check out these exciting events coming up:"]

def clubsTemplates : List Str :=
  [str "HMAWBI University has many active student clubs and organizations:",
   str "Our student clubs offer great opportunities for involvement:",
   str "Join one of our vibrant student organizations:"]

def universityInfoTemplates : List Str :=
  [str "Here\x27s general information about HMAWBI University:",
   str "Let me share some key information about our university:",
   str "About HMAWBI University:"]

def defaultTemplates : List Str :=
  [str "I\x27m here to help with information about HMAWBI University. Could you please be more specific about what you\x27d like to know?",
   str "I can assist you with questions about programs, admissions, campus facilities, scholarships, clubs, events, news, and general university information at HMAWBI University. What interests you?",
   str "Thank you for your question. I can provide information about various aspects of HMAWBI University. Please let me know what specific area you\x27d like to learn about."]

/-! ## `_generate_rule_based_response` (`ai_processor (3).py`), branch by branch -/

/-- The career-paths line of the program detail template, with its
`isinstance` dispatch and "not specified" filtering. -/
def rbCareerPathsLine (cp : Option PyVal) : Str :=
  match cp.getD (PyVal.vlist []) with
  | .vlist l =>
    let valid := (l.filter (fun p =>
      pyTruthy p && (lowerStr (pyStrip p) != str "not specified"))).map pyStrip
    if !valid.isEmpty then
      str "🎯 Career Paths: " ++ joinSep (str ", ") valid ++ str "\n"
    else str "🎯 Career Paths: Contact career services for details\n"
  | .vstr s =>
    if pyTruthy (pyStrip s) && (lowerStr (pyStrip s) != str "not specified") then
      str "🎯 Career Paths: " ++ s ++ str "\n"
    else str "🎯 Career Paths: Contact career services for details\n"
  | .vother => str "🎯 Career Paths: Contact career services for details\n"

/-- The salary-range line of the program detail template. -/
def rbSalaryLine (sr : Option Str) : Str :=
  let s := getS sr (str "Contact career services for details")
  if pyTruthy s && (lowerStr (pyStrip s) != str "not specified") then
    str "💰 Salary Range: " ++ s ++ str "\n"
  else str "💰 Salary Range: Contact career services for details\n"

/-- The specializations line of the program detail template. -/
def rbSpecializationsLine (sp : Option PyVal) : Str :=
  match sp.getD (PyVal.vlist []) with
  | .vlist l =>
    let valid := (l.filter (fun p =>
      pyTruthy p && (lowerStr (pyStrip p) != str "not specified"))).map pyStrip
    if !valid.isEmpty then
      str "🔬 Specializations: " ++ joinSep (str ", ") valid ++ str "\n"
    else str "🔬 Specializations: Contact academic office for details\n"
  | .vstr s =>
    if pyTruthy (pyStrip s) && (lowerStr (pyStrip s) != str "not specified") then
      str "🔬 Specializations: " ++ s ++ str "\n"
    else str "🔬 Specializations: Contact academic office for details\n"
  | .vother => str "🔬 Specializations: Contact academic office for details\n"

/-- The detail template for one named program. -/
def rbProgramDetail (name : Str) (pd : ProgramData) : Str :=
  str "Here\x27s information about **" ++ name ++ str "**:\n\n" ++
    str "📚 Duration: " ++ getS pd.duration (str "Not specified") ++ str "\n" ++
    str "📝 Description: " ++ getS pd.description (str "No description available") ++ str "\n" ++
    rbCareerPathsLine pd.career_paths ++
    str "📋 Entry Requirements: " ++ getS pd.entry_requirements (str "Contact admissions for details") ++ str "\n" ++
    rbSalaryLine pd.salary_range ++
    rbSpecializationsLine pd.specializations ++
    str "\nWould you like detailed information about any other programs?"

/-- The `programs` branch. -/
def rbProgramsResponse (msg : Str) (ctx : Context) (pick : List Str → Str) : Str :=
  let rp := pick programsTemplates
  match ctx.programs with
  | some progs =>
    if !progs.isEmpty then
      let mL := lowerStr msg
      match progs.find? (fun p => subIn (lowerStr p.1) mL) with
      | some (name, pd) => rbProgramDetail name pd
      | none =>
        let names := progs.map (fun p => p.1)
        if !names.isEmpty then
          rp ++ str "\n\n" ++ joinSep (str "\n") (names.map (fun n => str "• " ++ n)) ++
            str "\n\nWould you like detailed information about any specific program?"
        else rp ++ str "\n\nSorry, no programs are currently listed. Please check back later."
    else rp ++ str "\n\nI couldn\x27t retrieve program information at the moment. Please check back later."
  | none => rp ++ str "\n\nI couldn\x27t retrieve program information at the moment. Please check back later."

/-- The `admission` branch. -/
def rbAdmissionResponse (ctx : Context) (pick : List Str → Str) : Str :=
  let rp := pick admissionTemplates
  match ctx.admission with
  | some a =>
    rp ++ str "\n\n📅 Academic Year: " ++ getS a.academic_year (str "Current Year") ++
      str "\n📆 Application Deadline: " ++ getS a.application_deadline (str "Contact admissions") ++
      str "\n📝 Entrance Exam: " ++ getS a.entrance_exam_date (str "TBA") ++
      str "\n💰 Application Fee: " ++ getS a.application_fee (str "Contact for details") ++
      str "\n📧 Contact: " ++ getS a.contact_email (str "admissions@hmawbi.edu.mm") ++
      str "\n📞 Phone: " ++ getS a.contact_phone (str "Contact university") ++
      str "\n🕒 Office Hours: " ++ getS a.office_hours (str "Monday-Friday 9:00 AM - 5:00 PM") ++
      (match a.requirements with
       | some r => str "\n📋 Requirements: " ++ r
       | none => []) ++
      (match a.documents_needed with
       | some d => str "\n📄 Documents Needed: " ++ d
       | none => [])
  | none => rp

/-- The `campus` branch: facilities grouped by type, three per type. -/
def rbCampusResponse (ctx : Context) (pick : List Str → Str) : Str :=
  let rp := pick campusTemplates
  match ctx.campus with
  | some c =>
    let fac := c.facilities.getD []
    if !fac.isEmpty then
      rp ++ str "\n\n" ++
        concatAll (fac.map (fun ft =>
          if !ft.2.isEmpty then
            str "🏛️ " ++ pyTitle (replaceAll '_' [] (str " ") ft.1) ++ str ":\n" ++
              concatAll ((ft.2.take 3).map (fun f => str "  • " ++ f ++ str "\n")) ++ str "\n"
          else []))
    else rp
  | none => rp

/-- The `student_life` branch. -/
def rbStudentLifeResponse (ctx : Context) (pick : List Str → Str) : Str :=
  let rp := pick studentLifeTemplates
  match ctx.student_life with
  | some sl =>
    let clubs := sl.clubs_organizations.getD []
    let afterClubs :=
      if !clubs.isEmpty then
        rp ++ str "\n\n🏛️ Student Clubs & Organizations:\n" ++
          concatAll ((clubs.take 5).map (fun c => str "• " ++ c ++ str "\n"))
      else
        rp ++ str "\n\n🏛️ Student Clubs & Organizations:\nWe have various clubs and organizations for students to join. Contact student services for more details."
    let evs := sl.upcoming_events.getD []
    let afterEvents :=
      if !evs.isEmpty then
        afterClubs ++ str "\n📅 Upcoming Events:\n" ++
          concatAll ((evs.take 3).map (fun e =>
            str "• " ++ getS e.title (str "Event") ++ str ": " ++ getS e.date (str "TBA") ++ str "\n"))
      else afterClubs
    afterEvents ++ str "\n\nFor detailed information about clubs or events, please ask about specific items!"
  | none => rp

/-- The phrase list for the scholarships "asking for details" sub-mode. -/
def detailsPhrases : List Str :=
  [str "eligibility", str "criteria", str "requirements", str "apply",
   str "application", str "deadline", str "how to", str "details", str "about",
   str "benefits"]

/-- The detail template for one named scholarship. -/
def rbScholarshipDetail (s : Scholarship) : Str :=
  str "Here\x27s detailed information about **" ++ s.name ++ str "**:\n\n" ++
    str "📝 Description: " ++ getS s.description (str "Available for eligible students") ++ str "\n" ++
    str "📋 Eligibility Criteria: " ++ getS s.criteria (str "Contact financial aid office") ++ str "\n" ++
    str "💵 Benefit: " ++ getS s.benefit (str "Contact for details") ++ str " (" ++
      getS s.benefit_type (str "Financial assistance") ++ str ")\n" ++
    str "📅 Application Deadline: " ++ getS s.deadline (str "No deadline specified") ++ str "\n" ++
    (if pyTruthyO s.application_process then
      str "📄 Application Process: " ++ getS s.application_process [] ++ str "\n"
     else []) ++
    str "\n💡 For applications and more information, please contact our financial aid office!"

/-- One block of the scholarships "detailed list" sub-mode. -/
def rbScholarshipBlock (s : Scholarship) : Str :=
  str "💰 **" ++ s.name ++ str "**\n" ++
    str "   📝 Description: " ++ getS s.description (str "Available for eligible students") ++ str "\n" ++
    str "   📋 Eligibility Criteria: " ++ getS s.criteria (str "Contact financial aid office") ++ str "\n" ++
    str "   💵 Benefit: " ++ getS s.benefit (str "Contact for details") ++ str " (" ++
      getS s.benefit_type (str "Financial assistance") ++ str ")\n" ++
    str "   📅 Application Deadline: " ++ getS s.deadline (str "No deadline specified") ++ str "\n\n"

/-- The `scholarships` branch. -/
def rbScholarshipsResponse (msg : Str) (ctx : Context) (pick : List Str → Str) : Str :=
  let rp := pick scholarshipsTemplates
  let mL := lowerStr msg
  let asking := anyIn detailsPhrases mL
  match ctx.scholarships with
  | some ss =>
    if !ss.isEmpty then
      match ss.find? (fun s => subIn (lowerStr s.name) mL) with
      | some s => rbScholarshipDetail s
      | none =>
        if asking then
          str "Here\x27s detailed information about our scholarship programs:\n\n" ++
            concatAll ((ss.take 3).map rbScholarshipBlock) ++
            str "💡 For applications and more information, please contact our financial aid office!"
        else
          rp ++ str "\n\n" ++
            concatAll ((ss.take 5).map (fun s =>
              str "• " ++ s.name ++ str ": " ++
                getS s.benefit (str "Financial assistance available") ++ str "\n")) ++
            str "\n💡 Ask me about a specific scholarship or \x27scholarship requirements\x27 for detailed information!"
    else rp ++ str "\n\nSorry, I couldn\x27t retrieve scholarship information at the moment. Please check back later."
  | none => rp ++ str "\n\nSorry, I couldn\x27t retrieve scholarship information at the moment. Please check back later."

/-- The detail template for one named club (`ai_processor (3).py` variant). -/
def rbClubDetail (c : Club) : Str :=
  str "Here\x27s information about **" ++ c.name ++ str "**:\n\n" ++
    str "📝 Description: " ++ getS c.description (str "Student organization") ++ str "\n" ++
    str "🏷️ Type: " ++ getS c.club_type (str "Student Club") ++ str "\n" ++
    str "👨‍🏫 Advisor: " ++ getS c.advisor (str "TBA") ++ str "\n" ++
    str "📅 Meeting Schedule: " ++ getS c.meeting_schedule (str "TBA") ++ str "\n" ++
    str "📋 Membership Requirements: " ++ getS c.membership_requirements (str "Open to all students") ++ str "\n" ++
    str "📧 Contact: " ++ getS c.contact_email (str "Contact student services") ++ str "\n" ++
    str "📅 Established: " ++ getS c.established_date (str "N/A") ++ str "\n" ++
    str "\n💡 Contact the club directly or student services for more information about joining!"

/-- The `clubs` branch (`ai_processor (3).py` variant: plain name-substring
match, no general-listing shortcut). -/
def rbClubsResponse (msg : Str) (ctx : Context) (pick : List Str → Str) : Str :=
  let rp := pick clubsTemplates
  let mL := lowerStr msg
  match ctx.clubs with
  | some cs =>
    if !cs.isEmpty then
      match cs.find? (fun c => subIn (lowerStr c.name) mL) with
      | some c => rbClubDetail c
      | none =>
        rp ++ str "\n\n" ++
          concatAll ((cs.take 8).map (fun c =>
            str "• " ++ c.name ++ str " (" ++ getS c.club_type (str "Student Club") ++ str ")\n")) ++
          str "\n💡 Ask me about a specific club for detailed information including meeting schedules and membership requirements!"
    else rp ++ str "\n\nSorry, I couldn\x27t retrieve club information at the moment. Please check back later."
  | none => rp ++ str "\n\nSorry, I couldn\x27t retrieve club information at the moment. Please check back later."

/-- The detail template for one named event. -/
def rbEventDetail (e : EventData) : Str :=
  str "Here\x27s information about **" ++ e.title ++ str "**:\n\n" ++
    str "📝 Description: " ++ getS e.description (str "University event") ++ str "\n" ++
    str "🏷️ Type: " ++ getS e.event_type (str "Event") ++ str "\n" ++
    str "📅 Start Date: " ++ getS e.start_date (str "TBA") ++ str "\n" ++
    str "📅 End Date: " ++ getS e.end_date (str "TBA") ++ str "\n" ++
    str "📍 Location: " ++ getS e.location (str "TBA") ++ str "\n" ++
    str "👥 Organizer: " ++ getS e.organizer (str "University") ++ str "\n" ++
    str "📋 Registration Required: " ++
      (if e.registration_required.getD false then str "Yes" else str "No") ++ str "\n" ++
    (if e.registration_required.getD false then
      str "📅 Registration Deadline: " ++ getS e.registration_deadline (str "N/A") ++ str "\n"
     else []) ++
    str "📞 Contact: " ++ getS e.contact_info (str "Contact event organizer") ++ str "\n" ++
    str "👥 Max Participants: " ++ getS e.max_participants (str "No limit") ++ str "\n" ++
    str "\nCheck the university website or contact the organizer for the latest updates."

/-- The `events` branch. -/
def rbEventsResponse (msg : Str) (ctx : Context) (pick : List Str → Str) : Str :=
  let rp := pick eventsTemplates
  let mL := lowerStr msg
  match ctx.events with
  | some es =>
    if !es.isEmpty then
      match es.find? (fun e => subIn (lowerStr e.title) mL) with
      | some e => rbEventDetail e
      | none =>
        rp ++ str "\n\n" ++
          concatAll ((es.take 5).map (fun e =>
            str "• **" ++ e.title ++ str "** (" ++ getS e.event_type (str "Event") ++ str ")\n" ++
              str "  📅 " ++ getS e.start_date (str "TBA") ++ str " at " ++
              getS e.location (str "TBA") ++ str "\n\n")) ++
          str "💡 Ask me about a specific event for detailed information including registration details!"
    else rp ++ str "\n\nSorry, I couldn\x27t retrieve event information at the moment. Please check back later."
  | none => rp ++ str "\n\nSorry, I couldn\x27t retrieve event information at the moment. Please check back later."

/-- The detail template for one department's contact record
(`ai_processor (3).py` variant). -/
def rbContactDetail (dept : Str) (d : ContactData) : Str :=
  str "Here\x27s the contact information for **" ++ dept ++ str "**:\n\n" ++
    str "📞 **Phone:** " ++ getS d.phone (str "Not specified") ++ str "\n" ++
    str "📧 **Email:** " ++ getS d.email (str "Not specified") ++ str "\n" ++
    str "👨‍🏫 **Teacher:** " ++ getS d.teacher (str "Not specified") ++ str "\n" ++
    (if pyTruthyO d.location then
      str "📍 **Location:** " ++ getS d.location (str "Not specified") ++ str "\n"
     else []) ++
    str "🕒 **Office Hours:** " ++ getS d.hours (str "Not specified") ++ str "\n" ++
    str "📝 **Description:** " ++ getS d.description (str "Not specified") ++ str "\n" ++
    str "\nWould you like to know about other departments?"

/-- The `contact` branch (`ai_processor (3).py` variant: exact or
space-stripped substring match only). -/
def rbContactResponse (msg : Str) (ctx : Context) (pick : List Str → Str) : Str :=
  let rp := pick contactTemplates
  let mL := lowerStr msg
  match ctx.contact with
  | some cs =>
    if !cs.isEmpty then
      match cs.find? (fun p =>
          subIn (lowerStr p.1) mL ||
            subIn (dropSpaces (lowerStr p.1)) (dropSpaces mL)) with
      | some (dept, d) => rbContactDetail dept d
      | none =>
        rp ++ str "\n\n" ++
          joinSep (str "\n") ((cs.take 5).map (fun p => str "• " ++ p.1)) ++
          str "\n\nWould you like detailed contact information for any specific department?"
    else str "I couldn\x27t retrieve any department contact information at the moment. Please check back later or contact the main university line."
  | none => str "I couldn\x27t retrieve any department contact information at the moment. Please check back later or contact the main university line."

/-- The 100-character news summary truncation (97 characters plus an
ellipsis when the content is longer than 100 characters). -/
def truncateNews (c : Str) : Str :=
  if 100 < c.length then c.take 97 ++ str "..." else c

/-- The detail template for one named news item. -/
def rbNewsDetail (n : NewsItem) : Str :=
  str "Here\x27s the full story about **" ++ n.title ++ str "**:\n\n" ++
    str "📅 **Date:** " ++ getS n.date (str "N/A") ++ str "\n" ++
    str "🏷️ **Category:** " ++ getS n.category (str "General") ++ str "\n" ++
    (if !(n.tags.getD []).isEmpty then
      str "🏷️ **Tags:** " ++ joinSep (str ", ") (n.tags.getD []) ++ str "\n"
     else []) ++
    str "\n📰 **Content:**\n" ++ getS n.content (str "No content available.") ++ str "\n"

/-- One numbered line of the news summary listing. -/
def newsSummaryLine (i : Nat) (n : NewsItem) : Str :=
  natStr i ++ str ". **" ++ n.title ++ str "** (" ++ getS n.date (str "N/A") ++ str ")\n" ++
    str "   " ++ truncateNews (getS n.content (str "No description available.")) ++ str "\n\n"

/-- The numbered summary lines, starting at index `i`. -/
def newsLinesFrom : Nat → List NewsItem → Str
  | _, [] => []
  | i, n :: rest => newsSummaryLine i n ++ newsLinesFrom (i + 1) rest

/-- The `news` branch. -/
def rbNewsResponse (msg : Str) (ctx : Context) (pick : List Str → Str) : Str :=
  let rp := pick newsTemplates ++ str "\n\n"
  let items := ctx.news.getD []
  if !items.isEmpty then
    let mL := lowerStr msg
    match items.find? (fun n => subIn (lowerStr n.title) mL) with
    | some n => rbNewsDetail n
    | none =>
      rp ++ str "**Latest Updates:**\n" ++ newsLinesFrom 1 (items.take 5) ++
        str "💡 Ask me about a specific news title for the full story!"
  else rp ++ str "📰 Stay tuned for exciting university updates and announcements!\n"

/-- The 150-character overview snippet truncation of the
`university_info` branch. -/
def truncateSnippet (c : Str) : Str :=
  if 150 < c.length then c.take 147 ++ str "..." else c

/-- The `university_info` branch (`ai_processor (3).py` variant: plain
key-substring match). -/
def rbUniversityInfoResponse (msg : Str) (ctx : Context) (pick : List Str → Str) : Str :=
  let rp := pick universityInfoTemplates
  let mL := lowerStr msg
  match ctx.university_info with
  | some items =>
    if !items.isEmpty then
      match items.find? (fun p => subIn (lowerStr p.1) mL) with
      | some (k, it) =>
        str "Here is the information about **" ++ k ++ str "** at HMAWBI University:\n\n" ++
          str "📚 **" ++ getS it.title k ++ str "**\n" ++
          str "   " ++ getS it.content (str "No content available.") ++ str "\n" ++
          (if pyTruthyO it.description then str "   " ++ getS it.description [] ++ str "\n" else [])
      | none =>
        rp ++ str "\n\n" ++
          concatAll (items.map (fun p =>
            str "📚 **" ++ getS p.2.title p.1 ++ str "**:\n" ++
              str "   " ++ truncateSnippet (getS p.2.content (str "No details available.")) ++ str "\n\n")) ++
          str "💡 You can ask for specific details like \x27university leadership\x27, \x27university transportation\x27, or \x27university history\x27."
    else rp ++ str "\n\nSorry, I couldn\x27t retrieve university information at the moment. Please check back later."
  | none => rp ++ str "\n\nSorry, I couldn\x27t retrieve university information at the moment. Please check back later."

/-- `_generate_rule_based_response`: dispatch on the intent label. -/
def generate_rule_based_response (msg : Str) (intent : String) (ctx : Context)
    (pick : List Str → Str) : Str :=
  if intent = "greeting" then pick greetingTemplates
  else if intent = "programs" then rbProgramsResponse msg ctx pick
  else if intent = "admission" then rbAdmissionResponse ctx pick
  else if intent = "campus" then rbCampusResponse ctx pick
  else if intent = "student_life" then rbStudentLifeResponse ctx pick
  else if intent = "scholarships" then rbScholarshipsResponse msg ctx pick
  else if intent = "clubs" then rbClubsResponse msg ctx pick
  else if intent = "events" then rbEventsResponse msg ctx pick
  else if intent = "contact" then rbContactResponse msg ctx pick
  else if intent = "news" then rbNewsResponse msg ctx pick
  else if intent = "university_info" then rbUniversityInfoResponse msg ctx pick
  else pick defaultTemplates

/-! ## Response Analyzer and Orchestrator (`ai_processor (3).py`) -/

/-- The fixed urgency keyword set of `_analyze_response`. -/
def urgencyKeywords : List Str :=
  [str "urgent", str "emergency", str "deadline", str "immediately",
   str "asap", str "help", str "problem"]

/-- The urgency membership test of `_analyze_response`. -/
def analyze_is_urgent (msg : Str) : Bool := anyIn urgencyKeywords (lowerStr msg)

/-- The helpfulness heuristic of `_analyze_response`: 0.8 by default,
0.5 for responses under 50 characters, 0.6 for lack-of-information
phrases, 0.9 for contact-channel words. -/
def analyze_helpfulness (resp : Str) : ℚ :=
  if resp.length < 50 then 1/2
  else if subIn (str "I don\x27t have that info") resp ||
      subIn (str "I\x27m not sure") resp ||
      subIn (str "Sorry, I couldn\x27t retrieve") resp then 3/5
  else if anyIn [str "contact", str "office", str "email", str "phone"] (lowerStr resp) then 9/10
  else 4/5

/-- `_analyze_response`. -/
def analyze_response (msg resp : Str) : Bool × ℚ :=
  (analyze_is_urgent msg, analyze_helpfulness resp)

/-- The result dictionary of `generate_response`. The policy-violation
and error dictionaries carry no `context_used` key, modelled as `none`. -/
structure BotResponse where
  message : Str
  is_urgent : Bool
  helpfulness : ℚ
  context_used : Option Bool
  intent : String
deriving DecidableEq

/-- The fixed refusal text of `_handle_disallowed_request`. -/
def refusalText : Str :=
  str "I can\x27t help identify or rank private individuals by appearance or make negative claims about staff. I can help in one of these ways: (1) run an anonymous poll for campus awards, (2) show campus-approved highlights or official recognitions, (3) explain how to submit formal feedback. Which would you prefer?"

/-- `_handle_disallowed_request`: the fixed policy-violation result. -/
def handle_disallowed_request (_message : Str) : BotResponse :=
  { message := refusalText
    is_urgent := false
    helpfulness := 3/5
    context_used := none
    intent := "policy_violation" }

/-- The fixed result returned by the orchestrator's catch-all handler. -/
def errorResult : BotResponse :=
  { message := str "I\x27m sorry, I\x27m having trouble processing your request right now. Please try again or contact our student services office for immediate assistance."
    is_urgent := false
    helpfulness := 3/10
    context_used := none
    intent := "error" }

/-- The body of the `try` block of `generate_response`: policy check,
classification, context loading (the only fallible step) and response
generation plus analysis. -/
def tryPipeline (msg : Str) (dm : DataManager) (pick : List Str → Str) :
    Except Str BotResponse :=
  if is_disallowed_request msg then Except.ok (handle_disallowed_request msg)
  else
    (get_relevant_context (classify_message_intent msg) dm).map (fun ctx =>
      let resp := generate_rule_based_response msg (classify_message_intent msg) ctx pick
      let a := analyze_response msg resp
      { message := resp
        is_urgent := a.1
        helpfulness := a.2
        context_used := some ctx.truthy
        intent := classify_message_intent msg })

/-- `generate_response`: the try body with the catch-all `except` clause. -/
def generate_response (msg : Str) (dm : DataManager) (pick : List Str → Str) :
    BotResponse :=
  match tryPipeline msg dm pick with
  | Except.ok r => r
  | Except.error _ => errorResult

/-! ## `handlers/academic_handler.py`

`AcademicHandler` re-declares the same `programs` template list and its
`handle_programs` repeats the programs branch of `ai_processor (3).py`
verbatim, so the shared template constants and the shared detail
template `rbProgramDetail` are reused. -/

namespace AcademicHandler

/-- `AcademicHandler.handle_programs`. -/
def handle_programs (msg : Str) (programs : Option (List (Str × ProgramData)))
    (pick : List Str → Str) : Str :=
  let rp := pick programsTemplates
  match programs with
  | some progs =>
    if !progs.isEmpty then
      let mL := lowerStr msg
      match progs.find? (fun p => subIn (lowerStr p.1) mL) with
      | some (name, pd) => rbProgramDetail name pd
      | none =>
        let names := progs.map (fun p => p.1)
        if !names.isEmpty then
          rp ++ str "\n\n" ++ joinSep (str "\n") (names.map (fun n => str "• " ++ n)) ++
            str "\n\nWould you like detailed information about any specific program?"
        else rp ++ str "\n\nSorry, no programs are currently listed. Please check back later."
    else rp ++ str "\n\nI couldn\x27t retrieve program information at the moment. Please check back later."
  | none => rp ++ str "\n\nI couldn\x27t retrieve program information at the moment. Please check back later."

end AcademicHandler

/-! ## `handlers/activity_handler.py` -/

namespace ActivityHandler

/-- The general club-listing query patterns of `handle_clubs`. -/
def general_club_patterns : List Str :=
  [str "which club do we have", str "what club do we have", str "which clubs do we have",
   str "what clubs do we have", str "which club are there", str "what club are there",
   str "which clubs are there", str "what clubs are there", str "list of club",
   str "list of clubs", str "all club", str "all clubs", str "available club",
   str "available clubs", str "what clubs", str "which clubs", str "show me clubs",
   str "tell me about clubs", str "clubs available", str "club list"]

/-- The general membership-question phrases of `handle_clubs`. -/
def generalMembershipPhrases : List Str :=
  [str "membership requirements", str "membership requirement", str "how to join clubs",
   str "club membership", str "join clubs"]

/-- The specific membership-question phrases of `handle_clubs`. -/
def membershipPhrases : List Str :=
  [str "membership requirements", str "membership requirement", str "how to join",
   str "join", str "membership", str "requirements", str "subscribe", str "subscription"]

/-- The full listing returned for a general club query. -/
def clubsGeneralListing (cs : List Club) : Str :=
  str "🏫 **Available Clubs at HMAWBI University:**\n\n" ++
    concatAll (cs.map (fun c =>
      str "🎯 **" ++ c.name ++ str "**\n" ++
        str "   📝 Type: " ++ getS c.club_type (str "Student Club") ++ str "\n" ++
        str "   👨‍🏫 Advisor: " ++ getS c.advisor (str "TBA") ++ str "\n\n")) ++
    str "💡 Ask me about a specific club for detailed information including meeting schedules and membership requirements!"

/-- The listing returned for a general membership question. -/
def clubsMembershipListing (cs : List Club) : Str :=
  str "🏫 **Club Membership Information at HMAWBI University:**\n\n" ++
    concatAll (cs.map (fun c =>
      str "🎯 **" ++ c.name ++ str "** (" ++ getS c.club_type (str "Student Club") ++ str ")\n" ++
        str "   📋 Requirements: " ++ getS c.membership_requirements (str "Open to all students") ++ str "\n" ++
        (if pyTruthyO c.membership_fee then
          str "   💰 Fee: " ++ getS c.membership_fee [] ++ str "\n"
         else []) ++
        str "   📧 Contact: " ++ getS c.contact_email (str "Contact student services") ++ str "\n\n")) ++
    str "💡 Ask me about a specific club for detailed information!"

/-- The specific-club search of `handle_clubs`: name substring in the
message, and every word of the club name a whitespace token of the
message. -/
def findSpecificClub (cs : List Club) (mL : Str) : Option Club :=
  cs.find? (fun c =>
    let cn := lowerStr c.name
    pyTruthy cn && subIn cn mL &&
      (pySplitWS cn).all (fun w => (pySplitWS mL).contains w))

/-- The detail template for one named club; with `asking` the reply leads
with the membership block. -/
def clubDetail (c : Club) (asking : Bool) : Str :=
  let common :=
    str "Here\x27s information about **" ++ c.name ++ str "**:\n\n" ++
      str "📝 Description: " ++ getS c.description (str "Student organization") ++ str "\n" ++
      str "🏷️ Type: " ++ getS c.club_type (str "Student Club") ++ str "\n"
  if asking then
    common ++
      str "\n📋 **Membership Requirements for " ++ c.name ++ str ":**\n" ++
      str "   " ++ getS c.membership_requirements (str "Open to all students") ++ str "\n\n" ++
      (if pyTruthyO c.membership_fee then
        str "💰 Membership Fee: " ++ getS c.membership_fee [] ++ str "\n"
       else []) ++
      (if pyTruthyO c.application_process then
        str "📄 Application Process: " ++ getS c.application_process [] ++ str "\n"
       else []) ++
      str "📅 Meeting Schedule: " ++ getS c.meeting_schedule (str "TBA") ++ str "\n" ++
      str "📧 Contact: " ++ getS c.contact_email (str "Contact student services") ++ str "\n" ++
      str "\n💡 Contact the club directly or student services for more information about joining!"
  else
    common ++
      str "👨‍🏫 Advisor: " ++ getS c.advisor (str "TBA") ++ str "\n" ++
      str "📅 Meeting Schedule: " ++ getS c.meeting_schedule (str "TBA") ++ str "\n" ++
      str "📋 Membership Requirements: " ++ getS c.membership_requirements (str "Open to all students") ++ str "\n" ++
      str "📧 Contact: " ++ getS c.contact_email (str "Contact student services") ++ str "\n" ++
      str "📅 Established: " ++ getS c.established_date (str "N/A") ++ str "\n" ++
      (if pyTruthyO c.membership_fee then
        str "💰 Membership Fee: " ++ getS c.membership_fee [] ++ str "\n"
       else []) ++
      str "\n💡 Contact the club directly or student services for more information about joining!"

/-- The bounded fallback listing of `handle_clubs`. -/
def clubsFallbackListing (cs : List Club) (pick : List Str → Str) : Str :=
  pick clubsTemplates ++ str "\n\n" ++
    concatAll ((cs.take 8).map (fun c =>
      str "• " ++ c.name ++ str " (" ++ getS c.club_type (str "Student Club") ++ str ")\n")) ++
    str "\n💡 Ask me about a specific club for detailed information!" ++
    str "\n💡 You can ask: \x27What are the membership requirements for [Club Name]?\x27"

/-- `ActivityHandler.handle_clubs`. -/
def handle_clubs (msg : Str) (clubs : Option (List Club)) (pick : List Str → Str) : Str :=
  let mL := lowerStr msg
  match clubs with
  | some cs =>
    if !cs.isEmpty then
      if anyIn general_club_patterns mL then clubsGeneralListing cs
      else if anyIn generalMembershipPhrases mL &&
          !(cs.any (fun c => subIn (lowerStr c.name) mL)) then
        clubsMembershipListing cs
      else
        match findSpecificClub cs mL with
        | some c => clubDetail c (anyIn membershipPhrases mL)
        | none => clubsFallbackListing cs pick
    else pick clubsTemplates ++ str "\n\nSorry, I couldn\x27t retrieve club information at the moment. Please check back later."
  | none => pick clubsTemplates ++ str "\n\nSorry, I couldn\x27t retrieve club information at the moment. Please check back later."

/-- The summary-listing branch of `handle_news` (top five items,
truncated content). -/
def newsListing (items : List NewsItem) (pick : List Str → Str) : Str :=
  pick newsTemplates ++ str "\n\n" ++ str "**Latest Updates:**\n" ++
    newsLinesFrom 1 (items.take 5) ++
    str "💡 Ask me about a specific news title for the full story!"

/-- `ActivityHandler.handle_news` (same texts as the news branch of
`ai_processor (3).py`; the shared detail and line templates are reused). -/
def handle_news (msg : Str) (news : Option (List NewsItem)) (pick : List Str → Str) : Str :=
  let items := news.getD []
  if !items.isEmpty then
    match items.find? (fun n => subIn (lowerStr n.title) (lowerStr msg)) with
    | some n => rbNewsDetail n
    | none => newsListing items pick
  else pick newsTemplates ++ str "\n\n" ++
    str "📰 Stay tuned for exciting university updates and announcements!\n"

end ActivityHandler

/-! ## `handlers/info_handler.py` -/

namespace InfoHandler

/-- `InfoHandler.handle_admission` (same field block as the admission
branch of `ai_processor (3).py`). -/
def handle_admission (admission : Option AdmissionData) (pick : List Str → Str) : Str :=
  let rp := pick admissionTemplates
  match admission with
  | some a =>
    rp ++ str "\n\n📅 Academic Year: " ++ getS a.academic_year (str "Current Year") ++
      str "\n📆 Application Deadline: " ++ getS a.application_deadline (str "Contact admissions") ++
      str "\n📝 Entrance Exam: " ++ getS a.entrance_exam_date (str "TBA") ++
      str "\n💰 Application Fee: " ++ getS a.application_fee (str "Contact for details") ++
      str "\n📧 Contact: " ++ getS a.contact_email (str "admissions@hmawbi.edu.mm") ++
      str "\n📞 Phone: " ++ getS a.contact_phone (str "Contact university") ++
      str "\n🕒 Office Hours: " ++ getS a.office_hours (str "Monday-Friday 9:00 AM - 5:00 PM") ++
      (match a.requirements with
       | some r => str "\n📋 Requirements: " ++ r
       | none => []) ++
      (match a.documents_needed with
       | some d => str "\n📄 Documents Needed: " ++ d
       | none => [])
  | none => rp

/-- The per-department matching rule of `handle_contact`: exact substring;
else for stored names of the shape `department of X` the reordered
variations `X department` / `Xdepartment` / `X`; else for stored office
names the office type; else space-stripped substring comparison. -/
def deptMatch (dept : Str) (mL : Str) : Bool :=
  let dl := lowerStr dept
  if subIn dl mL then true
  else if (str "department of").isPrefixOf dl then
    let subject := pyStrip (replaceAll 'd' (str "epartment of") [] dl)
    anyIn [subject ++ str " department", subject ++ str "department", subject] mL
  else if subIn (str "office") dl then
    let officeType := pyStrip (replaceAll 'o' (str "ffice") [] dl)
    subIn officeType mL
  else subIn (dropSpaces dl) (dropSpaces mL)

/-- The unbounded department listing of `handle_contact`. -/
def contactListing (cs : List (Str × ContactData)) (pick : List Str → Str) : Str :=
  pick contactTemplates ++ str "\n\n" ++
    joinSep (str "\n") (cs.map (fun p => str "• " ++ p.1)) ++
    str "\n\nWould you like detailed contact information for any specific department?"

/-- `InfoHandler.handle_contact` (the department detail block is the same
as in `ai_processor (3).py`, so `rbContactDetail` is reused). -/
def handle_contact (msg : Str) (contact : Option (List (Str × ContactData)))
    (pick : List Str → Str) : Str :=
  match contact with
  | some cs =>
    if !cs.isEmpty then
      let mL := lowerStr msg
      match cs.find? (fun p => deptMatch p.1 mL) with
      | some (dept, d) => rbContactDetail dept d
      | none => contactListing cs pick
    else str "I couldn\x27t retrieve any department contact information at the moment. Please check back later or contact the main university line."
  | none => str "I couldn\x27t retrieve any department contact information at the moment. Please check back later or contact the main university line."

/-- The rector-query trigger phrases of `handle_university_info`. -/
def rectorQueryPhrases : List Str :=
  [str "who is rector", str "rector name", str "current rector", str "rector is"]

/-- The pro-rector-query trigger phrases of `handle_university_info`. -/
def proRectorQueryPhrases : List Str :=
  [str "who is pro-rector", str "pro-rector name", str "current pro-rector",
   str "pro rector name"]

def leadershipWords : List Str :=
  [str "leadership", str "administration", str "officials", str "management team"]

def locationWords : List Str :=
  [str "location", str "address", str "transportation", str "bus",
   str "directions", str "how to get", str "where is"]

def historyWords : List Str :=
  [str "history", str "background", str "founded", str "established"]

def generalInfoPhrases : List Str :=
  [str "university information", str "about university",
   str "tell me about university", str "general information"]

/-- Title test of the rector branch: `rector` in the title but not
`pro-rector`. -/
def rectorTitleHit (it : InfoItem) : Bool :=
  let t := lowerStr (getS it.title [])
  subIn (str "rector") t && !(subIn (str "pro-rector") t)

/-- Title test of the pro-rector branch. -/
def proRectorTitleHit (it : InfoItem) : Bool :=
  subIn (str "pro-rector") (lowerStr (getS it.title []))

/-- The rector detail reply built from a title-matched record. -/
def rectorDetailText (it : InfoItem) : Str :=
  str "🎓 **" ++ getS it.title (str "University Rector") ++ str "**\n" ++
    getS it.content (str "Contact administration for current rector information.") ++ str "\n" ++
    (if pyTruthyO it.description && (it.description.getD [] != str "Not specified") then
      str "\n💡 " ++ it.description.getD [] ++ str "\n"
     else []) ++
    str "\n📞 Need to contact the rector\x27s office? Ask for contact information!"

/-- The pro-rector detail reply built from a title-matched record. -/
def proRectorDetailText (it : InfoItem) : Str :=
  str "🎓 **" ++ getS it.title (str "University Pro-Rector") ++ str "**\n" ++
    getS it.content (str "Contact administration for current pro-rector information.") ++ str "\n" ++
    (if pyTruthyO it.description && (it.description.getD [] != str "Not specified") then
      str "\n💡 " ++ it.description.getD [] ++ str "\n"
     else []) ++
    str "\n📞 Need to contact the pro-rector\x27s office? Ask for contact information!"

/-- The leadership-entry fallback of the rector branch: a leadership key
whose content has a `rector:` line and no `pro-rector:` line. -/
def rectorLeadershipFallback (items : List (Str × InfoItem)) : Option Str :=
  items.findSome? (fun p =>
    if subIn (str "leadership") (lowerStr p.1) then
      let content := getS p.2.content []
      if subIn (str "rector:") (lowerStr content) &&
          !(subIn (str "pro-rector:") (lowerStr content)) then
        match (pySplitChar '\n' content).find? (fun line =>
            subIn (str "rector:") (lowerStr line) &&
              !(subIn (str "pro-rector") (lowerStr line))) with
        | some line =>
          some (str "🎓 **University Rector**\n" ++ pyStrip line ++ str "\n" ++
            str "\n📞 Need to contact the rector\x27s office? Ask for contact information!")
        | none => none
      else none
    else none)

/-- The leadership-entry fallback of the pro-rector branch. -/
def proRectorLeadershipFallback (items : List (Str × InfoItem)) : Option Str :=
  items.findSome? (fun p =>
    if subIn (str "leadership") (lowerStr p.1) then
      let content := getS p.2.content []
      if subIn (str "pro-rector:") (lowerStr content) then
        match (pySplitChar '\n' content).find? (fun line =>
            subIn (str "pro-rector:") (lowerStr line)) with
        | some line =>
          some (str "🎓 **University Pro-Rector**\n" ++ pyStrip line ++ str "\n" ++
            str "\n📞 Need to contact the pro-rector\x27s office? Ask for contact information!")
        | none => none
      else none
    else none)

/-- The full rector branch of `handle_university_info`. -/
def rectorAnswer (items : List (Str × InfoItem)) : Str :=
  match items.find? (fun p => rectorTitleHit p.2) with
  | some p => rectorDetailText p.2
  | none =>
    (rectorLeadershipFallback items).getD
      (str "I couldn\x27t find specific information for the rector. You might find details in the general \x27University Leadership\x27 information. Would you like me to show that?")

/-- The full pro-rector branch of `handle_university_info`. -/
def proRectorAnswer (items : List (Str × InfoItem)) : Str :=
  match items.find? (fun p => proRectorTitleHit p.2) with
  | some p => proRectorDetailText p.2
  | none =>
    (proRectorLeadershipFallback items).getD
      (str "I couldn\x27t find specific information for the pro-rector. You might find details in the general \x27University Leadership\x27 information. Would you like me to show that?")

/-- The single-type detail reply of `handle_university_info`. -/
def uinfoDetail (k : Str) (it : InfoItem) : Str :=
  str "Here is the information about **" ++ k ++ str "** at HMAWBI University:\n\n" ++
    str "📍 **" ++ getS it.title k ++ str "**\n" ++
    getS it.content (str "No content available.") ++ str "\n" ++
    (if pyTruthyO it.description && (it.description.getD [] != str "Not specified") then
      str "\n💡 " ++ it.description.getD [] ++ str "\n"
     else []) ++
    (if subIn (str "location") (lowerStr k) then
      str "\n🚌 Need directions or transportation details? Just ask!"
     else if subIn (str "leadership") (lowerStr k) then
      str "\n📞 Need to contact university administration? Ask for contact information!"
     else [])

/-- The general overview reply of `handle_university_info`. -/
def uinfoOverview (items : List (Str × InfoItem)) (pick : List Str → Str) : Str :=
  pick universityInfoTemplates ++ str "\n\n" ++
    concatAll (items.map (fun p =>
      str "📚 **" ++ getS p.2.title p.1 ++ str "**:\n" ++
        str "   " ++ truncateNews (getS p.2.content (str "No details available.")) ++ str "\n\n")) ++
    str "💡 You can ask for specific details like \x27Who is the rector?\x27, \x27university location\x27, or \x27university history\x27."

/-- The available-topics reply of `handle_university_info`. -/
def uinfoAvailable (items : List (Str × InfoItem)) : Str :=
  str "I can help you with information about HMAWBI University. Here\x27s what I can tell you about:\n\n" ++
    concatAll (items.map (fun p => str "• " ++ p.1 ++ str "\n")) ++
    str "\n💡 Try asking: \x27Who is the rector?\x27, \x27Who is the pro-rector?\x27, or \x27Tell me about university location\x27"

/-- The second half of `handle_university_info`: render a found info type
or fall back to the overview or the available-topics list. -/
def afterTypeChoice (items : List (Str × InfoItem)) (mL : Str)
    (found : Option (Str × InfoItem)) (pick : List Str → Str) : Str :=
  match found with
  | some (k, it) => uinfoDetail k it
  | none =>
    if anyIn generalInfoPhrases mL then uinfoOverview items pick
    else uinfoAvailable items

/-- `InfoHandler.handle_university_info`. -/
def handle_university_info (msg : Str) (uinfo : Option (List (Str × InfoItem)))
    (pick : List Str → Str) : Str :=
  let mL := lowerStr msg
  match uinfo with
  | some items =>
    if !items.isEmpty then
      if anyIn rectorQueryPhrases mL then rectorAnswer items
      else if anyIn proRectorQueryPhrases mL then proRectorAnswer items
      else if anyIn leadershipWords mL then
        afterTypeChoice items mL
          (items.find? (fun p => subIn (str "leadership") (lowerStr p.1))) pick
      else if anyIn locationWords mL then
        afterTypeChoice items mL
          (items.find? (fun p => anyIn [str "location", str "transportation"] (lowerStr p.1))) pick
      else if anyIn historyWords mL then
        afterTypeChoice items mL
          (items.find? (fun p => subIn (str "history") (lowerStr p.1))) pick
      else
        afterTypeChoice items mL
          (items.find? (fun p => subIn (lowerStr p.1) mL)) pick
    else pick universityInfoTemplates ++ str "\n\nSorry, I couldn\x27t retrieve university information at the moment. Please check back later."
  | none => pick universityInfoTemplates ++ str "\n\nSorry, I couldn\x27t retrieve university information at the moment. Please check back later."

end InfoHandler

/-! ## Concrete fixtures used by counterexamples and witnesses -/

/-- A concrete template selection: always the first variant. -/
def pickHead : List Str → Str := fun l => l.headD []

/-- A data manager whose every lookup succeeds with empty data. -/
def dmEmpty : DataManager :=
  { get_all_programs := Except.ok []
    get_admission_info := Except.ok {}
    get_campus_info := Except.ok {}
    get_student_life_info := Except.ok {}
    get_scholarships := Except.ok []
    get_all_clubs := Except.ok []
    get_all_events := Except.ok []
    get_latest_news := fun _ => Except.ok []
    get_contact_info := Except.ok []
    get_university_info := Except.ok [] }

/-- A data manager whose news lookup raises. -/
def dmNewsDown : DataManager :=
  { dmEmpty with get_latest_news := fun _ => Except.error (str "database unavailable") }

/-- A chess club record. -/
def chessClub : Club :=
  { name := str "Chess Club"
    description := some (str "Board games and strategy")
    club_type := some (str "Academic")
    advisor := some (str "U Ba Maw")
    contact_email := some (str "chess@hmawbi.edu.mm")
    meeting_schedule := some (str "Fridays 4 PM")
    membership_requirements := some (str "Open to all students")
    established_date := some (str "2015") }

/-- A civil-engineering program record. -/
def civilProgram : ProgramData :=
  { duration := some (str "5 years")
    description := some (str "Comprehensive civil engineering program")
    career_paths := some (PyVal.vlist [str "Civil Engineer", str "Construction Manager"])
    entry_requirements := some (str "Matriculation with strong math and physics")
    salary_range := some (str "300000-800000 MMK")
    specializations := some (PyVal.vlist [str "Structural", str "Geotechnical"]) }

/-- A contact record for a department. -/
def civilContact : ContactData :=
  { phone := some (str "+95-1-234567")
    email := some (str "civil@hmawbi.edu.mm")
    teacher := some (str "Dr. Aye")
    location := some (str "Building A")
    hours := some (str "9 AM - 4 PM")
    description := some (str "Civil engineering department office") }

/-- The plain rector record of the fixture context. -/
def rectorItem : InfoItem :=
  { title := some (str "Rector")
    content := some (str "U Aung Kyaw is the university head.")
    description := some (str "Not specified") }

/-- The pro-rector record of the fixture context. -/
def proRectorItem : InfoItem :=
  { title := some (str "Pro-Rector")
    content := some (str "Daw Mya Mya assists the university head.")
    description := some (str "Not specified") }

/-- A university-info context with a plain rector record and a pro-rector
record. -/
def uinfoLeadership : List (Str × InfoItem) :=
  [(str "General Information",
    { title := some (str "About HMAWBI")
      content := some (str "HMAWBI University is a technological university.")
      description := some (str "Not specified") }),
   (str "Rector Details", rectorItem),
   (str "Deputy Details", proRectorItem)]

/-- A news item whose content is longer than 100 characters. -/
def sportsNews : NewsItem :=
  { title := str "Sports Day"
    content := some (str "The annual sports day brings together every department for a full week of competitions, games, friendly matches and award ceremonies across the whole campus.")
    category := some (str "Events")
    date := some (str "2024-12-01")
    tags := some [str "sports"] }

/-! ## Claims -/

/-- Claim C1: every message matching a Policy Filter pattern makes
`generate_response` return the fixed refusal with intent
`policy_violation`, helpfulness 0.6 and `is_urgent = false`, for every
data manager and every template selection — the policy check runs before
intent classification, so no classifier rule or handler can override it. -/
theorem claim_C1 (msg : Str) (dm : DataManager) (pick : List Str → Str)
    (h : is_disallowed_request msg = true) :
    generate_response msg dm pick = handle_disallowed_request msg ∧
    (generate_response msg dm pick).intent = "policy_violation" ∧
    (generate_response msg dm pick).helpfulness = 3/5 ∧
    (generate_response msg dm pick).is_urgent = false ∧
    (generate_response msg dm pick).message = refusalText := by
  have hp : tryPipeline msg dm pick = Except.ok (handle_disallowed_request msg) := by
    simp [tryPipeline, h]
  simp [generate_response, hp, handle_disallowed_request]

/-- Witness for C1: the concrete message `Who is the prettiest student?`
is disallowed and gets the policy-violation result. -/
theorem claim_C1_witness :
    is_disallowed_request (str "Who is the prettiest student?") = true ∧
    generate_response (str "Who is the prettiest student?") dmEmpty pickHead =
      handle_disallowed_request (str "Who is the prettiest student?") ∧
    (generate_response (str "Who is the prettiest student?") dmEmpty pickHead).intent =
      "policy_violation" := by
  have h : is_disallowed_request (str "Who is the prettiest student?") = true := by decide
  exact ⟨h, (claim_C1 _ dmEmpty pickHead h).1, (claim_C1 _ dmEmpty pickHead h).2.1⟩

/-- Counterexample for C2: the classifier does not use the order stated
in the claim. `engineering club` is classified `programs` (the programs
rule precedes the clubs rule), and a message with both a contact phrase
and a university-identity phrase is classified `university_info` (that
rule comes first), not `contact`. -/
theorem claim_C2_counterexample :
    classify_message_intent (str "engineering club") = "programs" ∧
    classify_message_intent (str "engineering club") ≠ "clubs" ∧
    classify_message_intent (str "contact the office about university history") =
      "university_info" ∧
    classify_message_intent (str "contact the office about university history") ≠
      "contact" := by
  refine ⟨by decide, by decide, by decide, by decide⟩

/-- Claim C2 (amended): the classifier is first-match-wins over an
ordered rule list, but the implemented order is university_info,
contact, greeting, campus, programs, clubs, events, student_life,
admission, scholarships, news, default; consequently `engineering club`
is classified `programs` and a contact-plus-university-identity message
is classified `university_info`. -/
theorem claim_C2 :
    (∀ msg, classify_message_intent msg = firstMatchClassify msg) ∧
    classify_message_intent (str "engineering club") = "programs" ∧
    classify_message_intent (str "contact the office about university history") =
      "university_info" := by
  exact ⟨fun _ => rfl, by decide, by decide⟩

/-- Claim C7: whenever the pipeline body raises (the context-loading
step is the fallible one in the embedding), `generate_response` returns
the fixed apology with intent `error`, helpfulness 0.3 and
`is_urgent = false`; the result is the constant `errorResult`, so no
detail of the exception reaches the caller and nothing propagates. -/
theorem claim_C7 (msg : Str) (dm : DataManager) (pick : List Str → Str) (e : Str)
    (h : tryPipeline msg dm pick = Except.error e) :
    generate_response msg dm pick = errorResult ∧
    (generate_response msg dm pick).intent = "error" ∧
    (generate_response msg dm pick).helpfulness = 3/10 ∧
    (generate_response msg dm pick).is_urgent = false ∧
    (generate_response msg dm pick).message = errorResult.message := by
  unfold generate_response
  rw [h]
  exact ⟨rfl, rfl, rfl, rfl, rfl⟩

/-- Witness for C7: a failing news lookup produces the apology result. -/
theorem claim_C7_witness :
    tryPipeline (str "latest news please") dmNewsDown pickHead =
      Except.error (str "database unavailable") ∧
    generate_response (str "latest news please") dmNewsDown pickHead = errorResult := by
  have h : tryPipeline (str "latest news please") dmNewsDown pickHead =
      Except.error (str "database unavailable") := by rfl
  exact ⟨h, (claim_C7 _ _ _ _ h).1⟩

/-- Claim C10: on the policy-violation path `is_urgent` is `false` even
when the message contains an urgency keyword — the Response Analyzer's
urgency test is bypassed entirely. -/
theorem claim_C10 (msg : Str) (dm : DataManager) (pick : List Str → Str)
    (h1 : is_disallowed_request msg = true)
    (_h2 : analyze_is_urgent msg = true) :
    (generate_response msg dm pick).is_urgent = false := by
  have hp : tryPipeline msg dm pick = Except.ok (handle_disallowed_request msg) := by
    simp [tryPipeline, h1]
  simp [generate_response, hp, handle_disallowed_request]

/-- Witness for C10: `urgent gossip` is disallowed, contains the urgency
keyword `urgent`, and still yields `is_urgent = false`. -/
theorem claim_C10_witness :
    is_disallowed_request (str "urgent gossip") = true ∧
    analyze_is_urgent (str "urgent gossip") = true ∧
    (generate_response (str "urgent gossip") dmEmpty pickHead).is_urgent = false :=
  ⟨by decide, by decide, claim_C10 _ dmEmpty pickHead (by decide) (by decide)⟩

/-- Claim C8: the helpfulness of every result of `generate_response`
lies in [0, 1] and is one of the constants 0.3, 0.5, 0.6, 0.8, 0.9:
the analyzer chain yields 0.5 / 0.6 / 0.9 / 0.8, the policy path 0.6
and the error path 0.3. -/
theorem claim_C8 (msg : Str) (dm : DataManager) (pick : List Str → Str) :
    ((generate_response msg dm pick).helpfulness = 3/10 ∨
     (generate_response msg dm pick).helpfulness = 1/2 ∨
     (generate_response msg dm pick).helpfulness = 3/5 ∨
     (generate_response msg dm pick).helpfulness = 4/5 ∨
     (generate_response msg dm pick).helpfulness = 9/10) ∧
    0 ≤ (generate_response msg dm pick).helpfulness ∧
    (generate_response msg dm pick).helpfulness ≤ 1 := by
  have key : (generate_response msg dm pick).helpfulness = 3/10 ∨
      (generate_response msg dm pick).helpfulness = 1/2 ∨
      (generate_response msg dm pick).helpfulness = 3/5 ∨
      (generate_response msg dm pick).helpfulness = 4/5 ∨
      (generate_response msg dm pick).helpfulness = 9/10 := by
    unfold generate_response
    cases htp : tryPipeline msg dm pick with
    | error e => exact Or.inl rfl
    | ok r =>
      unfold tryPipeline at htp
      by_cases hd : is_disallowed_request msg = true
      · simp only [hd, if_true] at htp
        have hr := Except.ok.inj htp
        subst hr
        exact Or.inr (Or.inr (Or.inl rfl))
      · rw [if_neg hd] at htp
        cases hg : get_relevant_context (classify_message_intent msg) dm with
        | error e2 => rw [hg] at htp; simp [Except.map] at htp
        | ok ctx =>
          rw [hg] at htp
          simp only [Except.map] at htp
          have hr := Except.ok.inj htp
          subst hr
          show analyze_helpfulness _ = 3/10 ∨ analyze_helpfulness _ = 1/2 ∨
            analyze_helpfulness _ = 3/5 ∨ analyze_helpfulness _ = 4/5 ∨
            analyze_helpfulness _ = 9/10
          unfold analyze_helpfulness
          split
          · exact Or.inr (Or.inl rfl)
          · split
            · exact Or.inr (Or.inr (Or.inl rfl))
            · split
              · exact Or.inr (Or.inr (Or.inr (Or.inr rfl)))
              · exact Or.inr (Or.inr (Or.inr (Or.inl rfl)))
  refine ⟨key, ?_, ?_⟩ <;> rcases key with h | h | h | h | h <;> rw [h] <;> norm_num

/-- Counterexample for C3: the message contains the exact club name
`Chess Club` from the context, yet `handle_clubs` returns the general
club listing, not the detail template — the general-listing patterns are
checked before entity matching. -/
theorem claim_C3_counterexample :
    subIn (lowerStr chessClub.name)
      (lowerStr (str "what clubs do we have - tell me about chess club")) = true ∧
    ActivityHandler.handle_clubs (str "what clubs do we have - tell me about chess club")
        (some [chessClub]) pickHead = ActivityHandler.clubsGeneralListing [chessClub] ∧
    subIn (str "Here\x27s information about")
      (ActivityHandler.handle_clubs (str "what clubs do we have - tell me about chess club")
        (some [chessClub]) pickHead) = false := by
  refine ⟨by decide, by rfl, by decide⟩

/-- Claim C3 (amended): entity matching yields the detail template, with
two provisos visible in the code. For `handle_programs` the first program
whose name is a substring of the lower-cased message is rendered in
detail, and the reply contains the program name. For `handle_clubs` this
holds only when no general-listing pattern matches the message and every
word of the club name occurs as a whitespace token of the message (the
`findSpecificClub` test); general-listing phrasings take priority over
entity matching. -/
theorem claim_C3 :
    (∀ (msg : Str) (progs : List (Str × ProgramData)) (pick : List Str → Str)
        (p : Str × ProgramData),
      progs.find? (fun q => subIn (lowerStr q.1) (lowerStr msg)) = some p →
      AcademicHandler.handle_programs msg (some progs) pick = rbProgramDetail p.1 p.2 ∧
        subIn p.1 (AcademicHandler.handle_programs msg (some progs) pick) = true) ∧
    (∀ (msg : Str) (cs : List Club) (pick : List Str → Str) (c : Club),
      anyIn ActivityHandler.general_club_patterns (lowerStr msg) = false →
      ActivityHandler.findSpecificClub cs (lowerStr msg) = some c →
      ActivityHandler.handle_clubs msg (some cs) pick =
          ActivityHandler.clubDetail c (anyIn ActivityHandler.membershipPhrases (lowerStr msg)) ∧
        subIn c.name (ActivityHandler.handle_clubs msg (some cs) pick) = true) := by
  constructor
  · intro msg progs pick p hfind
    have hempty : progs.isEmpty = false := by
      cases progs with
      | nil => simp at hfind
      | cons a l => rfl
    have heq : AcademicHandler.handle_programs msg (some progs) pick = rbProgramDetail p.1 p.2 := by
      simp only [AcademicHandler.handle_programs, hempty, Bool.not_false, if_true, hfind]
    refine ⟨heq, ?_⟩
    rw [heq]
    unfold rbProgramDetail
    simp only [List.append_assoc]
    exact subIn_sandwich _ _ _
  · intro msg cs pick c hgen hfind
    have hempty : cs.isEmpty = false := by
      cases cs with
      | nil => simp [ActivityHandler.findSpecificClub] at hfind
      | cons a l => rfl
    have hmem : c ∈ cs := List.mem_of_find?_eq_some hfind
    have hpred := List.find?_some hfind
    have hnamein : subIn (lowerStr c.name) (lowerStr msg) = true := by
      simp only [Bool.and_eq_true] at hpred
      exact hpred.1.2
    have hany : cs.any (fun x => subIn (lowerStr x.name) (lowerStr msg)) = true :=
      List.any_eq_true.mpr ⟨c, hmem, hnamein⟩
    have heq : ActivityHandler.handle_clubs msg (some cs) pick =
        ActivityHandler.clubDetail c (anyIn ActivityHandler.membershipPhrases (lowerStr msg)) := by
      simp only [ActivityHandler.handle_clubs, hempty, Bool.not_false, if_true, hgen,
        Bool.false_eq_true, if_false, hany, Bool.not_true, Bool.and_false, hfind]
    refine ⟨heq, ?_⟩
    rw [heq]
    unfold ActivityHandler.clubDetail
    by_cases hask : anyIn ActivityHandler.membershipPhrases (lowerStr msg) = true
    · rw [hask]
      simp only [if_true, List.append_assoc]
      exact subIn_sandwich _ _ _
    · rw [Bool.not_eq_true] at hask
      rw [hask]
      simp only [Bool.false_eq_true, if_false, List.append_assoc]
      exact subIn_sandwich _ _ _

/-- Witness for C3 (amended): a named program and a named club produce
their detail templates on concrete inputs. -/
theorem claim_C3_witness :
    AcademicHandler.handle_programs (str "tell me about civil engineering")
        (some [(str "Civil Engineering", civilProgram)]) pickHead =
      rbProgramDetail (str "Civil Engineering") civilProgram ∧
    ActivityHandler.handle_clubs (str "tell me about the chess club")
        (some [chessClub]) pickHead =
      ActivityHandler.clubDetail chessClub
        (anyIn ActivityHandler.membershipPhrases
          (lowerStr (str "tell me about the chess club"))) :=
  ⟨(claim_C3.1 (str "tell me about civil engineering")
      [(str "Civil Engineering", civilProgram)] pickHead
      (str "Civil Engineering", civilProgram) (by decide)).1,
   (claim_C3.2 (str "tell me about the chess club") [chessClub] pickHead chessClub
      (by decide) (by decide)).1⟩

/-- Counterexample for C4: the reverse word-order direction fails. The
query `Contact information for Department of Civil Engineering` against
a stored record named `Civil Engineering Department` returns the
department list, not the detail template. -/
theorem claim_C4_counterexample :
    InfoHandler.handle_contact (str "Contact information for Department of Civil Engineering")
        (some [(str "Civil Engineering Department", civilContact)]) pickHead =
      InfoHandler.contactListing [(str "Civil Engineering Department", civilContact)] pickHead ∧
    subIn (str "Here\x27s the contact information for")
      (InfoHandler.handle_contact (str "Contact information for Department of Civil Engineering")
        (some [(str "Civil Engineering Department", civilContact)]) pickHead) = false := by
  refine ⟨by rfl, by decide⟩

/-- Claim C4 (amended): word-order tolerance only covers stored names of
the shape `Department of X`. Such a record matches any message containing
`x` — so in particular both `x department` and `department of x`
phrasings — and yields the detail template (matching is also
whitespace-insensitive through the space-stripped comparison branch).
A stored `X Department` record is not matched by a `Department of X`
query, which instead returns the department list. -/
theorem claim_C4 (msg : Str) (d : ContactData) (pick : List Str → Str)
    (h : subIn (str "civil engineering") (lowerStr msg) = true) :
    InfoHandler.handle_contact msg
        (some [(str "Department of Civil Engineering", d)]) pick =
      rbContactDetail (str "Department of Civil Engineering") d := by
  have hm : InfoHandler.deptMatch (str "Department of Civil Engineering") (lowerStr msg) = true := by
    unfold InfoHandler.deptMatch
    by_cases hx : subIn (lowerStr (str "Department of Civil Engineering")) (lowerStr msg) = true
    · simp [hx]
    · rw [Bool.not_eq_true] at hx
      have hpre : (str "department of").isPrefixOf
          (lowerStr (str "Department of Civil Engineering")) = true := by decide
      have hsubj : pyStrip (replaceAll 'd' (str "epartment of") []
          (lowerStr (str "Department of Civil Engineering"))) = str "civil engineering" := by
        decide
      simp only [hx, Bool.false_eq_true, if_false, hpre, if_true, hsubj]
      exact List.any_eq_true.mpr ⟨str "civil engineering", by simp, h⟩
  have hfind : [(str "Department of Civil Engineering", d)].find?
      (fun p => InfoHandler.deptMatch p.1 (lowerStr msg)) =
      some (str "Department of Civil Engineering", d) := by
    simp [List.find?, hm]
  simp only [InfoHandler.handle_contact, List.isEmpty, Bool.not_false, if_true, hfind]

/-- Witness for C4 (amended): the stored `Department of Civil Engineering`
record is matched by the reordered query and the detail template is
returned. -/
theorem claim_C4_witness :
    InfoHandler.handle_contact (str "Contact information for Civil Engineering Department")
        (some [(str "Department of Civil Engineering", civilContact)]) pickHead =
      rbContactDetail (str "Department of Civil Engineering") civilContact :=
  claim_C4 (str "Contact information for Civil Engineering Department")
    civilContact pickHead (by decide)

/-- Claim C5 (code bug): the rector and pro-rector query branches of
`handle_university_info` are not mutually exclusive. The message
`pro-rector name` — one of the handler's own pro-rector trigger
phrases — contains the substring `rector name`, so the plain-rector
branch fires first and returns the record titled `Rector`; the
pro-rector branch, whose phrase list explicitly includes
`pro-rector name`, is unreachable for this input. -/
theorem claim_C5_eval :
    anyIn InfoHandler.proRectorQueryPhrases (lowerStr (str "pro-rector name")) = true ∧
    anyIn InfoHandler.rectorQueryPhrases (lowerStr (str "pro-rector name")) = true ∧
    InfoHandler.handle_university_info (str "pro-rector name")
        (some uinfoLeadership) pickHead = InfoHandler.rectorDetailText rectorItem ∧
    subIn (str "**Rector**")
      (InfoHandler.handle_university_info (str "pro-rector name")
        (some uinfoLeadership) pickHead) = true ∧
    subIn (str "Pro-Rector")
      (InfoHandler.handle_university_info (str "pro-rector name")
        (some uinfoLeadership) pickHead) = false := by
  refine ⟨by decide, by decide, by rfl, by decide, by decide⟩

/-- Counterexample for C6: with empty context the news handler returns
normally but its text contains no could-not-retrieve / check-back-later
phrase — it says `Stay tuned for exciting university updates` instead —
and the admission handler returns only the bare template line. -/
theorem claim_C6_counterexample :
    ActivityHandler.handle_news (str "any news") none pickHead =
      pickHead newsTemplates ++ str "\n\n" ++
        str "📰 Stay tuned for exciting university updates and announcements!\n" ∧
    subIn (str "check back later")
      (ActivityHandler.handle_news (str "any news") none pickHead) = false ∧
    subIn (str "could not retrieve")
      (ActivityHandler.handle_news (str "any news") none pickHead) = false ∧
    subIn (str "couldn\x27t retrieve")
      (ActivityHandler.handle_news (str "any news") none pickHead) = false ∧
    InfoHandler.handle_admission none pickHead = pickHead admissionTemplates ∧
    subIn (str "check back later") (InfoHandler.handle_admission none pickHead) = false := by
  refine ⟨by rfl, by decide, by decide, by decide, by rfl, by decide⟩

/-- Claim C6 (amended): with empty or absent context every handler
returns normally (all embedded handlers are total functions); the
programs, clubs, contact and university-info handlers return a
could-not-retrieve / check-back-later phrase, but the news handler
instead appends `Stay tuned for exciting university updates and
announcements!` and the admission handler returns only the template
prefix with no fallback phrase. -/
theorem claim_C6 (msg : Str) (pick : List Str → Str) :
    subIn (str "check back later") (AcademicHandler.handle_programs msg none pick) = true ∧
    subIn (str "couldn\x27t retrieve") (AcademicHandler.handle_programs msg none pick) = true ∧
    subIn (str "check back later") (ActivityHandler.handle_clubs msg none pick) = true ∧
    subIn (str "couldn\x27t retrieve") (ActivityHandler.handle_clubs msg none pick) = true ∧
    subIn (str "check back later") (InfoHandler.handle_contact msg none pick) = true ∧
    subIn (str "couldn\x27t retrieve") (InfoHandler.handle_contact msg none pick) = true ∧
    subIn (str "check back later") (InfoHandler.handle_university_info msg none pick) = true ∧
    subIn (str "couldn\x27t retrieve") (InfoHandler.handle_university_info msg none pick) = true ∧
    ActivityHandler.handle_news msg none pick =
      pick newsTemplates ++ str "\n\n" ++
        str "📰 Stay tuned for exciting university updates and announcements!\n" ∧
    subIn (str "Stay tuned") (ActivityHandler.handle_news msg none pick) = true ∧
    InfoHandler.handle_admission none pick = pick admissionTemplates := by
  have hprog : AcademicHandler.handle_programs msg none pick =
      pick programsTemplates ++
        str "\n\nI couldn\x27t retrieve program information at the moment. Please check back later." := rfl
  have hclubs : ActivityHandler.handle_clubs msg none pick =
      pick clubsTemplates ++
        str "\n\nSorry, I couldn\x27t retrieve club information at the moment. Please check back later." := rfl
  have huinfo : InfoHandler.handle_university_info msg none pick =
      pick universityInfoTemplates ++
        str "\n\nSorry, I couldn\x27t retrieve university information at the moment. Please check back later." := rfl
  have hnews : ActivityHandler.handle_news msg none pick =
      (pick newsTemplates ++ str "\n\n") ++
        str "📰 Stay tuned for exciting university updates and announcements!\n" := rfl
  have hcontact : InfoHandler.handle_contact msg none pick =
      str "I couldn\x27t retrieve any department contact information at the moment. Please check back later or contact the main university line." := rfl
  refine ⟨?_, ?_, ?_, ?_, ?_, ?_, ?_, ?_, ?_, ?_, rfl⟩
  · rw [hprog]; exact subIn_append_left _ _ _ (by decide)
  · rw [hprog]; exact subIn_append_left _ _ _ (by decide)
  · rw [hclubs]; exact subIn_append_left _ _ _ (by decide)
  · rw [hclubs]; exact subIn_append_left _ _ _ (by decide)
  · rw [hcontact]; decide
  · rw [hcontact]; decide
  · rw [huinfo]; exact subIn_append_left _ _ _ (by decide)
  · rw [huinfo]; exact subIn_append_left _ _ _ (by decide)
  · rw [hnews, List.append_assoc]
  · rw [hnews]; exact subIn_append_left _ _ _ (by decide)

/-- Claim C9: a news query naming no stored title gets the bounded
summary listing: at most five items, each summary's content truncated to
at most 100 characters in total — content over 100 characters is cut to
97 characters plus an ellipsis, shorter content is shown in full —
rendered next to the item's title and date. -/
theorem claim_C9 (msg : Str) (items : List NewsItem) (pick : List Str → Str)
    (hne : items ≠ [])
    (hnm : ∀ n ∈ items, subIn (lowerStr n.title) (lowerStr msg) = false) :
    ActivityHandler.handle_news msg (some items) pick =
      ActivityHandler.newsListing items pick ∧
    (items.take 5).length ≤ 5 ∧
    (∀ c : Str, (truncateNews c).length ≤ 100) ∧
    (∀ c : Str, c.length ≤ 100 → truncateNews c = c) ∧
    (∀ c : Str, 100 < c.length → truncateNews c = c.take 97 ++ str "...") ∧
    (∀ (i : Nat) (n : NewsItem), subIn n.title (newsSummaryLine i n) = true) := by
  refine ⟨?_, ?_, ?_, ?_, ?_, ?_⟩
  · have hempty : items.isEmpty = false := by
      cases items with
      | nil => exact absurd rfl hne
      | cons a l => rfl
    have hfind : items.find? (fun n => subIn (lowerStr n.title) (lowerStr msg)) = none := by
      apply List.find?_eq_none.mpr
      intro x hx
      simp [hnm x hx]
    simp only [ActivityHandler.handle_news, Option.getD_some, hempty, Bool.not_false,
      if_true, hfind]
  · simp only [List.length_take]
    exact Nat.min_le_left 5 items.length
  · intro c
    unfold truncateNews
    split
    · rename_i hc
      simp only [List.length_append, List.length_take,
        show (str "...").length = 3 from rfl]
      omega
    · rename_i hc
      omega
  · intro c hc
    unfold truncateNews
    rw [if_neg (by omega)]
  · intro c hc
    unfold truncateNews
    rw [if_pos hc]
  · intro i n
    unfold newsSummaryLine
    simp only [List.append_assoc]
    exact subIn_append_left _ _ _ (subIn_append_left _ _ _ (subIn_self_append _ _))

/-- Witness for C9: three-field news context, query naming no title. -/
theorem claim_C9_witness :
    ActivityHandler.handle_news (str "What are the latest university news?")
        (some [sportsNews]) pickHead =
      ActivityHandler.newsListing [sportsNews] pickHead ∧
    ([sportsNews].take 5).length ≤ 5 :=
  ⟨(claim_C9 (str "What are the latest university news?") [sportsNews] pickHead
      (by decide) (by decide)).1,
   (claim_C9 (str "What are the latest university news?") [sportsNews] pickHead
      (by decide) (by decide)).2.1⟩
